import Mathlib

/-!
Verification of the funnel-analytics pipeline of `src/app.py` against its
specification. The embedding models the pandas column arithmetic over exact
rationals, with an explicit value type for the NaN / infinity results that
float division by zero produces, so that `fillna(0)` and `.round(2)` can be
modelled faithfully.
-/

/-- Result value of a pandas float column entry: either a rational number,
NaN (from 0/0), or a signed infinity (from x/0 with x nonzero). -/
inductive PVal where
  | nan : PVal
  | inf : PVal
  | ninf : PVal
  | val : ℚ → PVal
deriving DecidableEq, Repr

/-- Pandas float division of two (possibly negative) exact numbers:
`0/0` is NaN, `x/0` with `x > 0` is `+inf`, with `x < 0` is `-inf`,
otherwise the exact quotient. No exception is ever raised. -/
def pdiv (a b : ℚ) : PVal :=
  if b = 0 then
    if a = 0 then PVal.nan else if 0 < a then PVal.inf else PVal.ninf
  else PVal.val (a / b)

/-- Multiplication of a pandas value by the scalar 100, as in `x * 100`:
NaN and the infinities are absorbing. -/
def pmul100 : PVal → PVal
  | PVal.nan => PVal.nan
  | PVal.inf => PVal.inf
  | PVal.ninf => PVal.ninf
  | PVal.val q => PVal.val (q * 100)

/-- Pandas `.fillna(0)`: replaces NaN by 0 and leaves every other value,
infinities included, unchanged. -/
def pfillna0 : PVal → PVal
  | PVal.nan => PVal.val 0
  | v => v

/-- Rounding a rational to two decimal places, modelling `.round(2)`. -/
def round2 (q : ℚ) : ℚ := (round (q * 100) : ℤ) / 100

/-- Pandas `.round(2)` on a column entry: NaN and infinities round to
themselves, finite values round to two decimal places. -/
def pround2 : PVal → PVal
  | PVal.nan => PVal.nan
  | PVal.inf => PVal.inf
  | PVal.ninf => PVal.ninf
  | PVal.val q => PVal.val (round2 q)

/-- Python comparison `v >= q` on a float column entry: False on NaN,
True on `+inf`, False on `-inf`, the exact comparison otherwise. -/
def pge (v : PVal) (q : ℚ) : Bool :=
  match v with
  | PVal.nan => false
  | PVal.inf => true
  | PVal.ninf => false
  | PVal.val x => decide (q ≤ x)

/-- Python comparison `v < q` on a float column entry: False on NaN,
False on `+inf`, True on `-inf`, the exact comparison otherwise. -/
def plt (v : PVal) (q : ℚ) : Bool :=
  match v with
  | PVal.nan => false
  | PVal.inf => false
  | PVal.ninf => true
  | PVal.val x => decide (x < q)

/-- One row of the funnel table after loading: the raw integer session
counts of `src/app.py` (`Sessions`, `Sessions with cart additions`,
`Sessions that reached checkout`, `Sessions that completed checkout`). -/
structure FunnelRecord where
  path : String
  pageType : String
  sessions : ℤ
  cartAdd : ℤ
  reachedCheckout : ℤ
  completed : ℤ
deriving DecidableEq, Repr

/-- Unrounded value of the `Conversion Rate (%)` column (line 45):
`completed / sessions * 100`, with no `fillna`. -/
def conversionRateExact (r : FunnelRecord) : PVal :=
  pmul100 (pdiv (r.completed : ℚ) (r.sessions : ℚ))

/-- Unrounded value of the `Add to Cart Rate (%)` column (line 46):
`cartAdd / sessions * 100`, with no `fillna`. -/
def addToCartRateExact (r : FunnelRecord) : PVal :=
  pmul100 (pdiv (r.cartAdd : ℚ) (r.sessions : ℚ))

/-- Unrounded value of the `Cart to Checkout Rate (%)` column (line 47):
`reachedCheckout / cartAdd * 100`, then `fillna(0)`. -/
def cartToCheckoutRateExact (r : FunnelRecord) : PVal :=
  pfillna0 (pmul100 (pdiv (r.reachedCheckout : ℚ) (r.cartAdd : ℚ)))

/-- Unrounded value of the `Checkout Completion Rate (%)` column (line 48):
`completed / reachedCheckout * 100`, then `fillna(0)`. -/
def checkoutCompletionRateExact (r : FunnelRecord) : PVal :=
  pfillna0 (pmul100 (pdiv (r.completed : ℚ) (r.reachedCheckout : ℚ)))

/-- Unrounded value of the `Cart Abandonment Rate (%)` column (line 49):
`(cartAdd - reachedCheckout) / cartAdd * 100`, then `fillna(0)`. -/
def cartAbandonmentRateExact (r : FunnelRecord) : PVal :=
  pfillna0 (pmul100 (pdiv ((r.cartAdd - r.reachedCheckout : ℤ) : ℚ) (r.cartAdd : ℚ)))

/-- The stored `Conversion Rate (%)` column: the unrounded value rounded
to two decimals, exactly as line 45 of `src/app.py` computes it. -/
def conversionRate (r : FunnelRecord) : PVal := pround2 (conversionRateExact r)

/-- The stored `Add to Cart Rate (%)` column (line 46). -/
def addToCartRate (r : FunnelRecord) : PVal := pround2 (addToCartRateExact r)

/-- The stored `Cart to Checkout Rate (%)` column (line 47). -/
def cartToCheckoutRate (r : FunnelRecord) : PVal := pround2 (cartToCheckoutRateExact r)

/-- The stored `Checkout Completion Rate (%)` column (line 48). -/
def checkoutCompletionRate (r : FunnelRecord) : PVal := pround2 (checkoutCompletionRateExact r)

/-- The stored `Cart Abandonment Rate (%)` column (line 49). -/
def cartAbandonmentRate (r : FunnelRecord) : PVal := pround2 (cartAbandonmentRateExact r)

/-- The `Added but Never Checkout` column (line 52). -/
def addedButNeverCheckout (r : FunnelRecord) : ℤ := r.cartAdd - r.reachedCheckout

/-- The `Reached but Never Completed` column (line 53). -/
def reachedButNeverCompleted (r : FunnelRecord) : ℤ := r.reachedCheckout - r.completed

/-- The behavioural buckets returned by `categorize_product` in `src/app.py`. -/
inductive Segment where
  | star : Segment
  | highTrafficUnderperformer : Segment
  | hiddenGem : Segment
  | checkoutLeaker : Segment
  | cartAbandoner : Segment
  | needsAttention : Segment
  | averagePerformer : Segment
deriving DecidableEq, Repr

/-- The columns of one row of `df_segment` that `categorize_product`
reads: the cart-addition count and the four stored rate columns. -/
structure SegRow where
  cartAdd : ℤ
  addToCartRate : PVal
  cartToCheckoutRate : PVal
  checkoutCompletionRate : PVal
  conversionRate : PVal
deriving DecidableEq, Repr

/-- The classifier `categorize_product` of `src/app.py` lines 418 to 442,
translated clause by clause from the sequential `if` / `elif` chain. -/
def categorize_product (row : SegRow) : Segment :=
  let cart_rate := row.cartToCheckoutRate
  let checkout_comp := row.checkoutCompletionRate
  let conv_rate := row.conversionRate
  if pge conv_rate 5 && pge checkout_comp 60 then Segment.star
  else if decide (50 ≤ row.cartAdd) && plt conv_rate 3 then Segment.highTrafficUnderperformer
  else if pge checkout_comp 60 && plt cart_rate 40 then Segment.hiddenGem
  else if pge cart_rate 50 && plt checkout_comp 40 then Segment.checkoutLeaker
  else if pge row.addToCartRate 10 && plt cart_rate 50 then Segment.cartAbandoner
  else if plt conv_rate 2 then Segment.needsAttention
  else Segment.averagePerformer

/-- The 7-row priority table of spec section 4.6, written from the spec's
words, evaluated top to bottom with first-match-wins semantics. -/
def segmentRuleTable (row : SegRow) : Segment :=
  if pge row.conversionRate 5 && pge row.checkoutCompletionRate 60 then Segment.star
  else if decide (50 ≤ row.cartAdd) && plt row.conversionRate 3 then Segment.highTrafficUnderperformer
  else if pge row.checkoutCompletionRate 60 && plt row.cartToCheckoutRate 40 then Segment.hiddenGem
  else if pge row.cartToCheckoutRate 50 && plt row.checkoutCompletionRate 40 then Segment.checkoutLeaker
  else if pge row.addToCartRate 10 && plt row.cartToCheckoutRate 50 then Segment.cartAbandoner
  else if plt row.conversionRate 2 then Segment.needsAttention
  else Segment.averagePerformer

/-- The segment-classifier input row built from a funnel record's stored
(rounded) columns, as `df_segment.apply(categorize_product, axis=1)` sees it. -/
def toSegRow (r : FunnelRecord) : SegRow :=
  { cartAdd := r.cartAdd
    addToCartRate := addToCartRate r
    cartToCheckoutRate := cartToCheckoutRate r
    checkoutCompletionRate := checkoutCompletionRate r
    conversionRate := conversionRate r }

/-- The `Segment` column value of one funnel record (line 444). -/
def segmentOf (r : FunnelRecord) : Segment := categorize_product (toSegRow r)

/-- The table `df_segment` (line 415): the filtered funnel rows restricted
to those with at least 10 cart-addition sessions. -/
def df_segment (rows : List FunnelRecord) : List FunnelRecord :=
  rows.filter (fun r => decide (10 ≤ r.cartAdd))

/-- The segmentation output: each row of `df_segment` together with its
`Segment` column (lines 415 and 444). -/
def segmentationOutput (rows : List FunnelRecord) : List (FunnelRecord × Segment) :=
  (df_segment rows).map (fun r => (r, segmentOf r))

/-- One raw row of the funnel CSV before loading: the `Landing page type`
column may be absent (None), every other column is present. -/
structure RawRow where
  path : String
  pageType : Option String
  sessions : ℤ
  cartAdd : ℤ
  reachedCheckout : ℤ
  completed : ℤ
deriving DecidableEq, Repr

/-- The per-row effect of line 18 of `src/app.py`,
`df['Landing page type'] = df['Landing page type'].fillna('Unknown')`:
an absent page type becomes the literal string `"Unknown"`. -/
def fillPageType (r : RawRow) : RawRow :=
  { r with pageType := some (r.pageType.getD "Unknown") }

/-- The loader `load_data` of `src/app.py` restricted to its only
row transformation: filling the missing page types. -/
def load_data (rows : List RawRow) : List RawRow :=
  rows.map fillPageType

/-- The `Lost at Cart ($)` column (line 342). -/
def lostAtCart (r : FunnelRecord) (aov : ℚ) : ℚ :=
  (addedButNeverCheckout r : ℚ) * aov

/-- The `Lost at Checkout ($)` column (line 346). -/
def lostAtCheckout (r : FunnelRecord) (aov : ℚ) : ℚ :=
  (reachedButNeverCompleted r : ℚ) * aov

/-- The `Recoverable from Cart ($)` column (line 343). -/
def recoverableFromCart (r : FunnelRecord) (aov rate : ℚ) : ℚ :=
  lostAtCart r aov * (rate / 100)

/-- The `Recoverable from Checkout ($)` column (line 347). -/
def recoverableFromCheckout (r : FunnelRecord) (aov rate : ℚ) : ℚ :=
  lostAtCheckout r aov * (rate / 100)

/-- The `Total Recoverable ($)` column (line 350). -/
def totalRecoverable (r : FunnelRecord) (aov rate : ℚ) : ℚ :=
  recoverableFromCart r aov rate + recoverableFromCheckout r aov rate

/-- One order line of the order-transaction export. -/
structure OrderLine where
  orderId : String
  productTitle : String
deriving DecidableEq, Repr

/-- Modelled from the spec: the Basket Extractor (section 4.2) is not part
of `src/app.py`; the spec says an order's basket is the set of distinct
product titles of the lines sharing one order id. -/
def basketOf (lines : List OrderLine) (oid : String) : List String :=
  ((lines.filter (fun l => l.orderId = oid)).map OrderLine.productTitle).dedup

/-- Modelled from the spec: the Basket Extractor groups lines by order id
and discards orders with fewer than 2 distinct titles. -/
def baskets (lines : List OrderLine) : List (List String) :=
  (((lines.map OrderLine.orderId).dedup).map (basketOf lines)).filter
    (fun b => 2 ≤ b.length)

/-- Modelled from the spec: the Affinity Aggregator (section 4.3) generates
every ordered pair of distinct titles drawn from one basket. -/
def orderedPairs (b : List String) : List (String × String) :=
  b.flatMap (fun a => (b.filter (fun c => c ≠ a)).map (fun c => (a, c)))

/-- Modelled from the spec: the Affinity Aggregator accumulates a count per
ordered pair across all baskets. -/
def pairCount (bs : List (List String)) (p : String × String) : ℕ :=
  (bs.map (fun b => (orderedPairs b).count p)).sum

/-- Whitespace test used by the Match-Key Normalizer. -/
def isWS (c : Char) : Bool :=
  c == ' ' || c == '\t' || c == '\n' || c == '\r'

/-- Character class kept by step 3 of the Match-Key Normalizer: lowercase
ASCII letters, digits, and whitespace. -/
def isKeptChar (c : Char) : Bool :=
  ('a' ≤ c && c ≤ 'z') || ('0' ≤ c && c ≤ '9') || isWS c

/-- Leading and trailing whitespace removal (step 2 of the normalizer). -/
def trimChars (cs : List Char) : List Char :=
  ((cs.dropWhile isWS).reverse.dropWhile isWS).reverse

/-- Collapse of each whitespace run to a single character (step 4). -/
def squeeze : List Char → List Char
  | [] => []
  | [c] => [c]
  | a :: b :: rest =>
    if isWS a && isWS b then squeeze (b :: rest) else a :: squeeze (b :: rest)

/-- Replacement of the remaining whitespace by hyphens (step 4). -/
def hyphenate (cs : List Char) : List Char :=
  cs.map (fun c => if isWS c then '-' else c)

/-- Modelled from the spec: the Match-Key Normalizer `slug` on textual
input (section 4.4): lowercase, trim, drop the characters that are not
lowercase letters, digits or whitespace, then turn each whitespace run
into one hyphen. The normalizer is not part of `src/app.py`. -/
def slugStr (s : String) : String :=
  String.mk (hyphenate (squeeze ((trimChars (s.data.map Char.toLower)).filter isKeptChar)))

/-- Modelled from the spec: `slug` returns the empty string on non-textual
input and `slugStr` on textual input; it never fails. -/
def slug : Option String → String
  | none => ""
  | some s => slugStr s

/-- Modelled from the spec: the funnel-side match key is the text after the
last slash of the landing-page path, or the whole string when the path has
no slash. -/
def pathTail (p : String) : String :=
  String.mk ((p.data.reverse.takeWhile (fun c => c ≠ '/')).reverse)

/-- Sample record with every count zero: every rate denominator is zero. -/
def rz : FunnelRecord := ⟨"", "", 0, 0, 0, 0⟩

/-- Sample record with zero cart additions but positive checkout reach. -/
def ri : FunnelRecord := ⟨"", "", 5, 0, 3, 1⟩

/-- Sample record whose conversion quotient 100/3 is not a 2-decimal value. -/
def rthird : FunnelRecord := ⟨"", "", 3, 3, 3, 1⟩

/-- Sample record with zero sessions and zero checkout reach but a positive
completed count: its conversion and checkout-completion quotients are
positive numerators over zero denominators. -/
def rInf : FunnelRecord := ⟨"", "", 0, 0, 0, 2⟩

/-- Sample record with exact 2-decimal rates. -/
def rquarter : FunnelRecord := ⟨"", "", 4, 2, 2, 1⟩

/-- Sample anomalous record: reachedCheckout exceeds cartAdd by 1 over a
base of 100000, so the raw abandonment rate is -0.001 percent. -/
def rOff : FunnelRecord := ⟨"", "", 200000, 100000, 100001, 0⟩

/-- Sample anomalous record with a clearly negative abandonment rate. -/
def rNeg : FunnelRecord := ⟨"", "", 10, 2, 3, 0⟩

/-- Sample record whose exact conversion quotient is 4.996 percent but whose
rounded conversion column is exactly 5 percent. -/
def rStar : FunnelRecord := ⟨"p", "t", 25000, 2000, 1500, 1249⟩

/-- Sample classifier row matching rule 1 and also rule 5 of the table. -/
def rowStar : SegRow := ⟨60, PVal.val 12, PVal.val 45, PVal.val 65, PVal.val 6⟩

/-- Sample record below the 10-cart-additions segmentation threshold. -/
def sampleLow : FunnelRecord := ⟨"a", "t", 50, 3, 2, 1⟩

/-- Sample record above the 10-cart-additions segmentation threshold. -/
def sampleHigh : FunnelRecord := ⟨"b", "t", 100, 12, 5, 2⟩

/-- Sample record for the revenue projection. -/
def rRev : FunnelRecord := ⟨"p", "t", 100, 40, 25, 10⟩

/-- Sample raw row with an absent page type. -/
def rawEx : RawRow := ⟨"/products/x", none, 5, 4, 3, 2⟩

/-! Helper lemmas about the pandas value model. -/

lemma pdiv_of_ne (a : ℚ) {b : ℚ} (h : b ≠ 0) : pdiv a b = PVal.val (a / b) := by
  simp [pdiv, h]

lemma pdiv_zero_zero : pdiv 0 0 = PVal.nan := by simp [pdiv]

lemma pdiv_pos_zero {a : ℚ} (h : 0 < a) : pdiv a 0 = PVal.inf := by
  simp [pdiv, h, ne_of_gt h]

lemma pdiv_neg_zero {a : ℚ} (h : a < 0) : pdiv a 0 = PVal.ninf := by
  rw [pdiv, if_pos rfl, if_neg h.ne, if_neg (not_lt.mpr h.le)]

lemma round2_eq (q : ℚ) (n : ℤ) (h1 : (n : ℚ) ≤ q * 100 + 1/2) (h2 : q * 100 + 1/2 < n + 1) :
    round2 q = (n : ℚ) / 100 := by
  unfold round2
  rw [round_eq, Int.floor_eq_iff.mpr ⟨h1, h2⟩]

lemma round2_nonpos {q : ℚ} (h : q < 0) : round2 q ≤ 0 := by
  unfold round2
  rw [round_eq]
  have h2 : (⌊q * 100 + 1/2⌋ : ℤ) ≤ ⌊(1/2 : ℚ)⌋ := Int.floor_le_floor (by nlinarith)
  have h3 : (⌊(1/2 : ℚ)⌋ : ℤ) = 0 := Int.floor_eq_iff.mpr ⟨by norm_num, by norm_num⟩
  rw [h3] at h2
  have h4 : ((⌊q * 100 + 1/2⌋ : ℤ) : ℚ) ≤ 0 := by exact_mod_cast h2
  linarith

lemma round2_idem (q : ℚ) : round2 (round2 q) = round2 q := by
  unfold round2
  rw [div_mul_cancel₀ _ (by norm_num : (100:ℚ) ≠ 0), round_intCast]

lemma pround2_idem (v : PVal) : pround2 (pround2 v) = pround2 v := by
  cases v <;> simp [pround2, round2_idem]

lemma conversionRate_eq (r : FunnelRecord) (h : (r.sessions : ℚ) ≠ 0) :
    conversionRate r = PVal.val (round2 ((r.completed : ℚ) / (r.sessions : ℚ) * 100)) := by
  rw [conversionRate, conversionRateExact, pdiv_of_ne _ h]
  rfl

lemma addToCartRate_eq (r : FunnelRecord) (h : (r.sessions : ℚ) ≠ 0) :
    addToCartRate r = PVal.val (round2 ((r.cartAdd : ℚ) / (r.sessions : ℚ) * 100)) := by
  rw [addToCartRate, addToCartRateExact, pdiv_of_ne _ h]
  rfl

lemma cartToCheckoutRate_eq (r : FunnelRecord) (h : (r.cartAdd : ℚ) ≠ 0) :
    cartToCheckoutRate r
      = PVal.val (round2 ((r.reachedCheckout : ℚ) / (r.cartAdd : ℚ) * 100)) := by
  rw [cartToCheckoutRate, cartToCheckoutRateExact, pdiv_of_ne _ h]
  rfl

lemma checkoutCompletionRate_eq (r : FunnelRecord) (h : (r.reachedCheckout : ℚ) ≠ 0) :
    checkoutCompletionRate r
      = PVal.val (round2 ((r.completed : ℚ) / (r.reachedCheckout : ℚ) * 100)) := by
  rw [checkoutCompletionRate, checkoutCompletionRateExact, pdiv_of_ne _ h]
  rfl

lemma cartAbandonmentRate_eq (r : FunnelRecord) (h : (r.cartAdd : ℚ) ≠ 0) :
    cartAbandonmentRate r
      = PVal.val (round2 (((r.cartAdd - r.reachedCheckout : ℤ) : ℚ)
          / (r.cartAdd : ℚ) * 100)) := by
  rw [cartAbandonmentRate, cartAbandonmentRateExact, pdiv_of_ne _ h]
  rfl

lemma conversionRate_val (r : FunnelRecord) (n : ℤ) (h : (r.sessions : ℚ) ≠ 0)
    (h1 : (n : ℚ) ≤ (r.completed : ℚ) / (r.sessions : ℚ) * 100 * 100 + 1/2)
    (h2 : (r.completed : ℚ) / (r.sessions : ℚ) * 100 * 100 + 1/2 < n + 1) :
    conversionRate r = PVal.val ((n : ℚ) / 100) := by
  rw [conversionRate_eq r h, round2_eq _ n h1 h2]

lemma addToCartRate_val (r : FunnelRecord) (n : ℤ) (h : (r.sessions : ℚ) ≠ 0)
    (h1 : (n : ℚ) ≤ (r.cartAdd : ℚ) / (r.sessions : ℚ) * 100 * 100 + 1/2)
    (h2 : (r.cartAdd : ℚ) / (r.sessions : ℚ) * 100 * 100 + 1/2 < n + 1) :
    addToCartRate r = PVal.val ((n : ℚ) / 100) := by
  rw [addToCartRate_eq r h, round2_eq _ n h1 h2]

lemma cartToCheckoutRate_val (r : FunnelRecord) (n : ℤ) (h : (r.cartAdd : ℚ) ≠ 0)
    (h1 : (n : ℚ) ≤ (r.reachedCheckout : ℚ) / (r.cartAdd : ℚ) * 100 * 100 + 1/2)
    (h2 : (r.reachedCheckout : ℚ) / (r.cartAdd : ℚ) * 100 * 100 + 1/2 < n + 1) :
    cartToCheckoutRate r = PVal.val ((n : ℚ) / 100) := by
  rw [cartToCheckoutRate_eq r h, round2_eq _ n h1 h2]

lemma checkoutCompletionRate_val (r : FunnelRecord) (n : ℤ) (h : (r.reachedCheckout : ℚ) ≠ 0)
    (h1 : (n : ℚ) ≤ (r.completed : ℚ) / (r.reachedCheckout : ℚ) * 100 * 100 + 1/2)
    (h2 : (r.completed : ℚ) / (r.reachedCheckout : ℚ) * 100 * 100 + 1/2 < n + 1) :
    checkoutCompletionRate r = PVal.val ((n : ℚ) / 100) := by
  rw [checkoutCompletionRate_eq r h, round2_eq _ n h1 h2]

lemma cartAbandonmentRate_val (r : FunnelRecord) (n : ℤ) (h : (r.cartAdd : ℚ) ≠ 0)
    (h1 : (n : ℚ) ≤ ((r.cartAdd - r.reachedCheckout : ℤ) : ℚ) / (r.cartAdd : ℚ) * 100 * 100 + 1/2)
    (h2 : ((r.cartAdd - r.reachedCheckout : ℤ) : ℚ) / (r.cartAdd : ℚ) * 100 * 100 + 1/2 < n + 1) :
    cartAbandonmentRate r = PVal.val ((n : ℚ) / 100) := by
  rw [cartAbandonmentRate_eq r h, round2_eq _ n h1 h2]

lemma conversionRateExact_val (r : FunnelRecord) (h : (r.sessions : ℚ) ≠ 0) :
    conversionRateExact r = PVal.val ((r.completed : ℚ) / (r.sessions : ℚ) * 100) := by
  rw [conversionRateExact, pdiv_of_ne _ h]
  rfl

lemma cartAbandonmentRateExact_val (r : FunnelRecord) (h : (r.cartAdd : ℚ) ≠ 0) :
    cartAbandonmentRateExact r
      = PVal.val (((r.cartAdd - r.reachedCheckout : ℤ) : ℚ) / (r.cartAdd : ℚ) * 100) := by
  rw [cartAbandonmentRateExact, pdiv_of_ne _ h]
  rfl

lemma conversionRate_nan {r : FunnelRecord} (hs : r.sessions = 0) (hc : r.completed = 0) :
    conversionRate r = PVal.nan := by
  rw [conversionRate, conversionRateExact, hs, hc]
  simp [pdiv, pmul100, pround2]

lemma checkoutCompletionRate_zero {r : FunnelRecord}
    (hr : r.reachedCheckout = 0) (hc : r.completed = 0) :
    checkoutCompletionRate r = PVal.val 0 := by
  rw [checkoutCompletionRate, checkoutCompletionRateExact, hr, hc]
  simp [pdiv, pmul100, pfillna0, pround2, round2]

lemma cartToCheckoutRate_zero {r : FunnelRecord}
    (ha : r.cartAdd = 0) (hr : r.reachedCheckout = 0) :
    cartToCheckoutRate r = PVal.val 0 := by
  rw [cartToCheckoutRate, cartToCheckoutRateExact, ha, hr]
  simp [pdiv, pmul100, pfillna0, pround2, round2]

lemma cartAbandonmentRate_zero {r : FunnelRecord}
    (ha : r.cartAdd = 0) (hr : r.reachedCheckout = 0) :
    cartAbandonmentRate r = PVal.val 0 := by
  rw [cartAbandonmentRate, cartAbandonmentRateExact, ha, hr]
  simp [pdiv, pmul100, pfillna0, pround2, round2]

lemma cartToCheckoutRate_inf {r : FunnelRecord}
    (ha : r.cartAdd = 0) (hr : 0 < r.reachedCheckout) :
    cartToCheckoutRate r = PVal.inf := by
  have hq : (0 : ℚ) < (r.reachedCheckout : ℚ) := by exact_mod_cast hr
  rw [cartToCheckoutRate, cartToCheckoutRateExact, ha]
  rw [show ((0 : ℤ) : ℚ) = 0 by norm_num, pdiv_pos_zero hq]
  rfl

lemma checkoutCompletionRate_inf {r : FunnelRecord}
    (hr : r.reachedCheckout = 0) (hc : 0 < r.completed) :
    checkoutCompletionRate r = PVal.inf := by
  have hq : (0 : ℚ) < (r.completed : ℚ) := by exact_mod_cast hc
  rw [checkoutCompletionRate, checkoutCompletionRateExact, hr]
  rw [show ((0 : ℤ) : ℚ) = 0 by norm_num, pdiv_pos_zero hq]
  rfl

lemma conversionRate_inf {r : FunnelRecord}
    (hs : r.sessions = 0) (hc : 0 < r.completed) :
    conversionRate r = PVal.inf := by
  have hq : (0 : ℚ) < (r.completed : ℚ) := by exact_mod_cast hc
  rw [conversionRate, conversionRateExact, hs]
  rw [show ((0 : ℤ) : ℚ) = 0 by norm_num, pdiv_pos_zero hq]
  rfl

lemma cartAbandonmentRate_ninf {r : FunnelRecord}
    (ha : r.cartAdd = 0) (hr : 0 < r.reachedCheckout) :
    cartAbandonmentRate r = PVal.ninf := by
  have hq : ((0 - r.reachedCheckout : ℤ) : ℚ) < 0 := by
    have h2 : (0 - r.reachedCheckout : ℤ) < 0 := by omega
    exact_mod_cast h2
  rw [cartAbandonmentRate, cartAbandonmentRateExact, ha]
  rw [show ((0 : ℤ) : ℚ) = 0 by norm_num, pdiv_neg_zero hq]
  rfl

lemma length_filter_ne {b : List String} {a : String} (hn : b.Nodup) (ha : a ∈ b) :
    (b.filter (fun c => c ≠ a)).length = b.length - 1 := by
  induction b with
  | nil => cases ha
  | cons x t ih =>
    rcases List.nodup_cons.mp hn with ⟨hx, ht⟩
    by_cases hax : a = x
    · have hx2 : a ∉ t := hax ▸ hx
      have hfilter : t.filter (fun c => c ≠ a) = t :=
        List.filter_eq_self.mpr (fun c hc => by
          simp only [decide_eq_true_eq]
          exact fun hca => hx2 (hca ▸ hc))
      simp only [List.filter_cons]
      split
      · next hcontra =>
          exfalso
          simp only [decide_eq_true_eq] at hcontra
          exact hcontra hax.symm
      · rw [hfilter, List.length_cons]
        omega
    · have hat : a ∈ t := by
        rcases List.mem_cons.mp ha with h | h
        · exact absurd h hax
        · exact h
      have hpos : 0 < t.length := List.length_pos_of_mem hat
      simp only [List.filter_cons]
      split
      · rw [List.length_cons, ih ht hat, List.length_cons]
        omega
      · next hcontra =>
          exfalso
          simp only [decide_eq_true_eq] at hcontra
          exact hcontra (fun h => hax h.symm)

lemma orderedPairs_length {b : List String} (hn : b.Nodup) :
    (orderedPairs b).length = b.length * (b.length - 1) := by
  unfold orderedPairs
  rw [List.length_flatMap]
  simp only [Function.comp_def, List.length_map]
  rw [List.map_congr_left
    (fun a ha => (length_filter_ne hn ha :
      (b.filter (fun c => c ≠ a)).length = b.length - 1))]
  rw [show (fun (a : String) => b.length - 1) = Function.const String (b.length - 1) from rfl]
  rw [List.map_const, List.sum_replicate, smul_eq_mul]

lemma segmentationOutput_cartAdd {rows : List FunnelRecord} {r : FunnelRecord} {s : Segment}
    (hmem : (r, s) ∈ segmentationOutput rows) : 10 ≤ r.cartAdd := by
  simp only [segmentationOutput, List.mem_map] at hmem
  rcases hmem with ⟨a, hafilter, heq⟩
  have har : a = r := congrArg Prod.fst heq
  subst har
  simp only [df_segment, List.mem_filter, decide_eq_true_eq] at hafilter
  exact hafilter.2

/-- C5: an order with lines [A, A, B] yields the single basket {A, B}
(duplicates collapse), whose ordered pairs are exactly (A,B) and (B,A); a
basket of n distinct titles yields n*(n-1) ordered pairs; and pair counts
accumulate across the baskets {A,B} and {A,B,C} to (A,B)=2, (B,A)=2,
(A,C)=1, (C,A)=1, (B,C)=1, (C,B)=1. -/
theorem claim_C5 :
    baskets [⟨"o1", "A"⟩, ⟨"o1", "A"⟩, ⟨"o1", "B"⟩] = [["A", "B"]] ∧
    orderedPairs ["A", "B"] = [("A", "B"), ("B", "A")] ∧
    (∀ b : List String, b.Nodup → (orderedPairs b).length = b.length * (b.length - 1)) ∧
    pairCount [["A", "B"], ["A", "B", "C"]] ("A", "B") = 2 ∧
    pairCount [["A", "B"], ["A", "B", "C"]] ("B", "A") = 2 ∧
    pairCount [["A", "B"], ["A", "B", "C"]] ("A", "C") = 1 ∧
    pairCount [["A", "B"], ["A", "B", "C"]] ("C", "A") = 1 ∧
    pairCount [["A", "B"], ["A", "B", "C"]] ("B", "C") = 1 ∧
    pairCount [["A", "B"], ["A", "B", "C"]] ("C", "B") = 1 :=
  ⟨by decide, by decide, fun b hn => orderedPairs_length hn,
   by decide, by decide, by decide, by decide, by decide, by decide⟩

/-- Witness for C5: the pair-generation count law applied to the concrete
duplicate-free basket [x, y, z]. -/
theorem claim_C5_witness :
    (orderedPairs ["x", "y", "z"]).length = 3 * 2 :=
  claim_C5.2.2.1 ["x", "y", "z"] (by decide)

/-- C6: the slug normalizer maps "Blue Prayer Mat!" to "blue-prayer-mat",
non-textual input to the empty string, and "  Trim  Me " to "trim-me"; the
funnel-side key of "/products/black-abaya" is "black-abaya" and of the
slashless "teapot" is "teapot". -/
theorem claim_C6 :
    slug (some "Blue Prayer Mat!") = "blue-prayer-mat" ∧
    slug none = "" ∧
    slug (some "  Trim  Me ") = "trim-me" ∧
    pathTail "/products/black-abaya" = "black-abaya" ∧
    pathTail "teapot" = "teapot" :=
  ⟨by decide, rfl, by decide, by decide, by decide⟩

/-- C7: for nonnegative average order value and a recovery rate in [0,100],
the revenue columns are the pure linear projection: lost-at-cart is
(cartAdd - reachedCheckout) * aov, lost-at-checkout is
(reachedCheckout - completed) * aov, and the total recoverable revenue is
(lost-at-cart + lost-at-checkout) * rate / 100. -/
theorem claim_C7 (r : FunnelRecord) (aov rate : ℚ)
    (h1 : 0 ≤ aov) (h2 : 0 ≤ rate) (h3 : rate ≤ 100) :
    lostAtCart r aov = ((r.cartAdd - r.reachedCheckout : ℤ) : ℚ) * aov ∧
    lostAtCheckout r aov = ((r.reachedCheckout - r.completed : ℤ) : ℚ) * aov ∧
    totalRecoverable r aov rate = (lostAtCart r aov + lostAtCheckout r aov) * rate / 100 := by
  refine ⟨rfl, rfl, ?_⟩
  unfold totalRecoverable recoverableFromCart recoverableFromCheckout
  ring

/-- Witness for C7: the projection evaluated at a concrete record with
average order value 50 and recovery rate 30. -/
theorem claim_C7_witness :
    totalRecoverable rRev 50 30 = (lostAtCart rRev 50 + lostAtCheckout rRev 50) * 30 / 100 :=
  (claim_C7 rRev 50 30 (by norm_num) (by norm_num) (by norm_num)).2.2

/-- C8: a raw row with an absent page type loads with the literal string
"Unknown" as its page type, and no other field of the row changes. -/
theorem claim_C8 (r : RawRow) (h : r.pageType = none) :
    (fillPageType r).pageType = some "Unknown" ∧
    (fillPageType r).path = r.path ∧
    (fillPageType r).sessions = r.sessions ∧
    (fillPageType r).cartAdd = r.cartAdd ∧
    (fillPageType r).reachedCheckout = r.reachedCheckout ∧
    (fillPageType r).completed = r.completed := by
  simp [fillPageType, h]

/-- Witness for C8: the default substitution on a concrete raw row. -/
theorem claim_C8_witness :
    (fillPageType rawEx).pageType = some "Unknown" ∧ (fillPageType rawEx).path = rawEx.path :=
  ⟨(claim_C8 rawEx rfl).1, (claim_C8 rawEx rfl).2.1⟩

/-- C10: every labelled record of the segmentation output has at least 10
cart-addition sessions, and a record with fewer than 10 never appears in
the output under any bucket, the default included. -/
theorem claim_C10 (rows : List FunnelRecord) (r : FunnelRecord) (s : Segment) :
    ((r, s) ∈ segmentationOutput rows → 10 ≤ r.cartAdd) ∧
    (r.cartAdd < 10 → (r, s) ∉ segmentationOutput rows) :=
  ⟨fun hmem => segmentationOutput_cartAdd hmem,
   fun hlt hmem => absurd (segmentationOutput_cartAdd hmem) (by omega)⟩

/-- Witness for C10: a record with 3 cart-addition sessions is absent from
the segmentation output of a concrete two-record table. -/
theorem claim_C10_witness :
    (sampleLow, Segment.star) ∉ segmentationOutput [sampleHigh, sampleLow] :=
  (claim_C10 [sampleHigh, sampleLow] sampleLow Segment.star).2 (by decide)

/-- C1 (amended): rates computed with fillna (cartToCheckout, checkout
completion, abandonment) equal 0 when numerator and denominator are both 0;
with a zero denominator and nonzero numerator the fillna rates are
plus or minus infinity (positive for cartToCheckout and checkout
completion, negative for abandonment, whose numerator is then negative);
the conversion rate, which has no fillna, is NaN at 0/0 and plus infinity
at completed > 0 over sessions = 0; no case raises an error. -/
theorem claim_C1 (r : FunnelRecord) :
    (r.reachedCheckout = 0 → r.completed = 0 → checkoutCompletionRate r = PVal.val 0) ∧
    (r.cartAdd = 0 → r.reachedCheckout = 0 →
      cartToCheckoutRate r = PVal.val 0 ∧ cartAbandonmentRate r = PVal.val 0) ∧
    (r.sessions = 0 → r.completed = 0 → conversionRate r = PVal.nan) ∧
    (r.cartAdd = 0 → 0 < r.reachedCheckout →
      cartToCheckoutRate r = PVal.inf ∧ cartAbandonmentRate r = PVal.ninf) ∧
    (r.reachedCheckout = 0 → 0 < r.completed → checkoutCompletionRate r = PVal.inf) ∧
    (r.sessions = 0 → 0 < r.completed → conversionRate r = PVal.inf) :=
  ⟨fun h1 h2 => checkoutCompletionRate_zero h1 h2,
   fun h1 h2 => ⟨cartToCheckoutRate_zero h1 h2, cartAbandonmentRate_zero h1 h2⟩,
   fun h1 h2 => conversionRate_nan h1 h2,
   fun h1 h2 => ⟨cartToCheckoutRate_inf h1 h2, cartAbandonmentRate_ninf h1 h2⟩,
   fun h1 h2 => checkoutCompletionRate_inf h1 h2,
   fun h1 h2 => conversionRate_inf h1 h2⟩

/-- Witness for C1: the zero-denominator cases on concrete records, with
both the 0/0 defaults and the nonzero-numerator infinities exercised. -/
theorem claim_C1_witness :
    checkoutCompletionRate rz = PVal.val 0 ∧ cartToCheckoutRate rz = PVal.val 0 ∧
    cartAbandonmentRate rz = PVal.val 0 ∧ conversionRate rz = PVal.nan ∧
    cartToCheckoutRate ri = PVal.inf ∧ cartAbandonmentRate ri = PVal.ninf ∧
    checkoutCompletionRate rInf = PVal.inf ∧ conversionRate rInf = PVal.inf :=
  ⟨(claim_C1 rz).1 rfl rfl, ((claim_C1 rz).2.1 rfl rfl).1, ((claim_C1 rz).2.1 rfl rfl).2,
   (claim_C1 rz).2.2.1 rfl rfl,
   ((claim_C1 ri).2.2.2.1 rfl (by decide)).1, ((claim_C1 ri).2.2.2.1 rfl (by decide)).2,
   (claim_C1 rInf).2.2.2.2.1 rfl (by decide),
   (claim_C1 rInf).2.2.2.2.2 rfl (by decide)⟩

/-- Counterexample for C1 as stated: with sessions = 0 the conversion rate
is NaN, not 0, and with cartAdd = 0 but reachedCheckout = 3 the cart to
checkout rate is +infinity, not 0. -/
theorem claim_C1_cex :
    rz.sessions = 0 ∧ conversionRate rz ≠ PVal.val 0 ∧
    ri.cartAdd = 0 ∧ cartToCheckoutRate ri ≠ PVal.val 0 := by
  refine ⟨rfl, ?_, rfl, ?_⟩
  · rw [conversionRate_nan rfl rfl]
    decide
  · rw [cartToCheckoutRate_inf rfl (by decide)]
    decide

/-- C2 (amended): with nonzero denominators each stored rate equals its
quotient formula rounded to two decimal places. -/
theorem claim_C2 (r : FunnelRecord) :
    (r.sessions ≠ 0 →
      conversionRate r = PVal.val (round2 ((r.completed : ℚ) / (r.sessions : ℚ) * 100))) ∧
    (r.reachedCheckout ≠ 0 →
      checkoutCompletionRate r
        = PVal.val (round2 ((r.completed : ℚ) / (r.reachedCheckout : ℚ) * 100))) ∧
    (r.cartAdd ≠ 0 →
      cartToCheckoutRate r
        = PVal.val (round2 ((r.reachedCheckout : ℚ) / (r.cartAdd : ℚ) * 100)) ∧
      cartAbandonmentRate r
        = PVal.val (round2 (((r.cartAdd - r.reachedCheckout : ℤ) : ℚ) / (r.cartAdd : ℚ) * 100))) :=
  ⟨fun h => conversionRate_eq r (Int.cast_ne_zero.mpr h),
   fun h => checkoutCompletionRate_eq r (Int.cast_ne_zero.mpr h),
   fun h => ⟨cartToCheckoutRate_eq r (Int.cast_ne_zero.mpr h),
             cartAbandonmentRate_eq r (Int.cast_ne_zero.mpr h)⟩⟩

/-- Witness for C2: the rounded-formula law at a concrete record. -/
theorem claim_C2_witness :
    conversionRate rquarter
      = PVal.val (round2 ((rquarter.completed : ℚ) / (rquarter.sessions : ℚ) * 100)) :=
  (claim_C2 rquarter).1 (by decide)

/-- Counterexample for C2 as stated: at sessions = 3, completed = 1, the
stored conversion rate is 33.33 percent, not the exact 100/3 percent. -/
theorem claim_C2_cex :
    rthird.sessions ≠ 0 ∧
    conversionRate rthird ≠ PVal.val ((rthird.completed : ℚ) / (rthird.sessions : ℚ) * 100) := by
  refine ⟨by decide, ?_⟩
  rw [conversionRate_val rthird 3333 (by norm_num [rthird]) (by norm_num [rthird])
    (by norm_num [rthird])]
  simp only [ne_eq, PVal.val.injEq, rthird]
  norm_num

/-- C3 (amended): with 0 < cartAdd < reachedCheckout the unrounded
abandonment rate is strictly negative; the stored column is that value
rounded to two decimals with no clamping, hence nonpositive (rounding can
bring a tiny negative rate to exactly 0). -/
theorem claim_C3 (r : FunnelRecord) (h0 : 0 < r.cartAdd) (h1 : r.cartAdd < r.reachedCheckout) :
    (∃ q : ℚ, cartAbandonmentRateExact r = PVal.val q ∧ q < 0) ∧
    cartAbandonmentRate r = pround2 (cartAbandonmentRateExact r) ∧
    (∀ q : ℚ, cartAbandonmentRate r = PVal.val q → q ≤ 0) := by
  have hdenpos : (0 : ℚ) < (r.cartAdd : ℚ) := by exact_mod_cast h0
  have hnum : (((r.cartAdd - r.reachedCheckout : ℤ) : ℚ)) < 0 := by
    have h2 : r.cartAdd - r.reachedCheckout < 0 := by omega
    exact_mod_cast h2
  have hq : (((r.cartAdd - r.reachedCheckout : ℤ) : ℚ) / (r.cartAdd : ℚ) * 100) < 0 :=
    mul_neg_of_neg_of_pos (div_neg_of_neg_of_pos hnum hdenpos) (by norm_num)
  have hexact := cartAbandonmentRateExact_val r hdenpos.ne'
  refine ⟨⟨_, hexact, hq⟩, rfl, ?_⟩
  intro q hq2
  rw [cartAbandonmentRate, hexact] at hq2
  simp only [pround2, PVal.val.injEq] at hq2
  rw [← hq2]
  exact round2_nonpos hq

/-- Witness for C3: the anomalous record with cartAdd = 2 and
reachedCheckout = 3. -/
theorem claim_C3_witness :
    (∃ q : ℚ, cartAbandonmentRateExact rNeg = PVal.val q ∧ q < 0) ∧
    cartAbandonmentRate rNeg = pround2 (cartAbandonmentRateExact rNeg) ∧
    (∀ q : ℚ, cartAbandonmentRate rNeg = PVal.val q → q ≤ 0) :=
  claim_C3 rNeg (by decide) (by decide)

/-- Counterexample for C3 as stated: with cartAdd = 100000 and
reachedCheckout = 100001 the raw abandonment rate -0.001 rounds to exactly
0, so the stored derived rate is not negative. -/
theorem claim_C3_cex :
    0 < rOff.cartAdd ∧ rOff.cartAdd < rOff.reachedCheckout ∧
    cartAbandonmentRate rOff = PVal.val 0 := by
  refine ⟨by decide, by decide, ?_⟩
  rw [cartAbandonmentRate_val rOff 0 (by norm_num [rOff]) (by norm_num [rOff])
    (by norm_num [rOff])]
  simp

/-- C4: the classifier of the source equals the 7-row priority table of the
spec with first-match-wins semantics, and any row passing rule 1
(conversion at least 5 and checkout completion at least 60) is classified
Star regardless of every other field. -/
theorem claim_C4 (row : SegRow) :
    categorize_product row = segmentRuleTable row ∧
    (pge row.conversionRate 5 = true → pge row.checkoutCompletionRate 60 = true →
      categorize_product row = Segment.star) := by
  refine ⟨rfl, fun h1 h2 => ?_⟩
  simp [categorize_product, h1, h2]

/-- Witness for C4: a row with conversion 6 and checkout completion 65 that
also satisfies the lower-priority rule 5 is still classified Star. -/
theorem claim_C4_witness :
    categorize_product rowStar = segmentRuleTable rowStar ∧
    categorize_product rowStar = Segment.star :=
  ⟨(claim_C4 rowStar).1,
   (claim_C4 rowStar).2 (by norm_num [rowStar, pge]) (by norm_num [rowStar, pge])⟩

/-- C9: each of the five displayed rate columns is the two-decimal rounding
of its exact quotient and is a fixed point of further rounding, and the
segment classification reads exactly those stored rounded columns; at the
record rStar the classifier yields Star from the rounded conversion rate
5.00 although the exact quotient 4.996 is below the Star threshold. -/
theorem claim_C9 :
    (∀ r : FunnelRecord,
      conversionRate r = pround2 (conversionRateExact r) ∧
      addToCartRate r = pround2 (addToCartRateExact r) ∧
      cartToCheckoutRate r = pround2 (cartToCheckoutRateExact r) ∧
      checkoutCompletionRate r = pround2 (checkoutCompletionRateExact r) ∧
      cartAbandonmentRate r = pround2 (cartAbandonmentRateExact r) ∧
      pround2 (conversionRate r) = conversionRate r ∧
      pround2 (addToCartRate r) = addToCartRate r ∧
      pround2 (cartToCheckoutRate r) = cartToCheckoutRate r ∧
      pround2 (checkoutCompletionRate r) = checkoutCompletionRate r ∧
      pround2 (cartAbandonmentRate r) = cartAbandonmentRate r ∧
      segmentOf r = categorize_product (toSegRow r)) ∧
    segmentOf rStar = Segment.star ∧
    pge (conversionRateExact rStar) 5 = false := by
  refine ⟨fun r => ⟨rfl, rfl, rfl, rfl, rfl, pround2_idem _, pround2_idem _, pround2_idem _,
    pround2_idem _, pround2_idem _, rfl⟩, ?_, ?_⟩
  · have hconv := conversionRate_val rStar 500 (by norm_num [rStar]) (by norm_num [rStar])
      (by norm_num [rStar])
    have hatc := addToCartRate_val rStar 800 (by norm_num [rStar]) (by norm_num [rStar])
      (by norm_num [rStar])
    have hc2c := cartToCheckoutRate_val rStar 7500 (by norm_num [rStar]) (by norm_num [rStar])
      (by norm_num [rStar])
    have hcomp := checkoutCompletionRate_val rStar 8327 (by norm_num [rStar])
      (by norm_num [rStar]) (by norm_num [rStar])
    unfold segmentOf toSegRow
    rw [hconv, hatc, hc2c, hcomp]
    norm_num [categorize_product, pge, plt]
  · rw [conversionRateExact_val rStar (by norm_num [rStar])]
    simp only [pge, rStar, decide_eq_false_iff_not]
    norm_num
